import Mathlib

/-!
Verification of the hatch-protobuf build hook (`src/hatch_protobuf/plugin.py`)
against its natural-language specification.

The plugin is modelled as pure Lean functions:
* `PyPath` models `pathlib` pure POSIX paths (parsing drops empty and `.`
  segments exactly as `pathlib` does).
* The filesystem is a list of root-relative file paths; `glob`-based
  discovery is the corresponding filter in enumeration order.
* Loosely typed configuration values are the inductive `Value`; validators
  return `Except String` mirroring the `RuntimeError` messages.
* `subprocess.run(check=True)` is modelled by an exit-code parameter; the
  `initialize` model returns the trace of invocations together with the
  updated artifact list or an error.
-/

namespace HatchProtobuf

/-- A pure POSIX path, as `pathlib.PurePosixPath`: an `absolute` anchor flag
and the list of parts.  `pathlib` parsing drops empty and `.` components. -/
structure PyPath where
  absolute : Bool
  parts : List String
deriving DecidableEq, Repr

/-- Split a character list on `/` (the semantics of `s.split("/")` for the
single-character separator used by POSIX path parsing), written with
structural recursion so that concrete instances reduce in the kernel. -/
def splitOnSlash : List Char → List (List Char)
  | [] => [[]]
  | c :: rest =>
    match splitOnSlash rest with
    | [] => [[]]
    | cur :: done => if c = '/' then [] :: cur :: done else (c :: cur) :: done

/-- Split a string on `/` and drop empty and `.` components, as `pathlib`
does when parsing a path string. -/
def splitParts (s : String) : List String :=
  ((splitOnSlash s.data).map (fun cs => String.mk cs)).filter (fun c => c ≠ "" && c ≠ ".")

/-- Model of `Path(s)`: parse a path string.  The path is absolute when the
string starts with `/`. -/
def PyPath.ofString (s : String) : PyPath :=
  ⟨match s.data with
   | '/' :: _ => true
   | _ => false,
   splitParts s⟩

/-- Model of `str(p)` / `p.as_posix()` for a pure POSIX path. -/
def PyPath.toStr (p : PyPath) : String :=
  if p.absolute then "/" ++ String.intercalate "/" p.parts
  else if p.parts.isEmpty then "." else String.intercalate "/" p.parts

/-- Model of `p / s` for a string operand: the operand is parsed first; an absolute
operand replaces the left side. -/
def PyPath.div (p : PyPath) (s : String) : PyPath :=
  let q := PyPath.ofString s
  if q.absolute then q else ⟨p.absolute, p.parts ++ q.parts⟩

/-- Model of `p / q` for a path operand. -/
def PyPath.divP (p q : PyPath) : PyPath :=
  if q.absolute then q else ⟨p.absolute, p.parts ++ q.parts⟩

/-- Model of `p.name`: the final component, or `""` when there is none. -/
def PyPath.name (p : PyPath) : String :=
  (p.parts.getLast?).getD ""

/-- Model of `p.parent`: drop the final component. -/
def PyPath.parent (p : PyPath) : PyPath :=
  ⟨p.absolute, p.parts.dropLast⟩

/-- Model of `p.stem` as CPython implements it: the name without its suffix, where a
suffix starts at the last dot only when that dot is neither the first nor the
last character of the name. -/
def PyPath.stem (p : PyPath) : String :=
  let n := p.name
  let cs := n.data
  match ((List.range cs.length).filter (fun i => cs.getD i ' ' = '.')).getLast? with
  | none => n
  | some i => if 0 < i ∧ i + 1 < cs.length then ⟨cs.take i⟩ else n

/-- One pass of Python `str.replace`: at each position, when `old` is a
prefix, emit `new` and skip past the occurrence, scanning left to right
without overlap.  The `fuel` argument (instantiated with the input length)
makes the recursion structural; it suffices whenever `old` is nonempty,
which holds for the two placeholder patterns the plugin substitutes. -/
def replaceFuel (old new : List Char) : Nat → List Char → List Char
  | 0, s => s
  | _ + 1, [] => []
  | fuel + 1, c :: rest =>
    if old.isPrefixOf (c :: rest) then
      new ++ replaceFuel old new fuel ((c :: rest).drop old.length)
    else
      c :: replaceFuel old new fuel rest

/-- Model of Python `s.replace(old, new)` for nonempty `old`. -/
def strReplace (s old new : String) : String :=
  ⟨replaceFuel old.data new.data s.data.length s.data⟩

/-- Model of Python `s.endswith(suffix)`. -/
def strEndsWith (s suffix : String) : Bool :=
  suffix.data.isSuffixOf s.data

/-- A generator configuration (dataclass `Generator`). -/
structure Generator where
  name : String
  outputs : List String
  output_path : PyPath
  protoc_plugin : Option String := none
  options : List String := []
deriving DecidableEq, Repr

/-- Dataclass `Files`: discovered inputs and derived outputs. -/
structure Files where
  inputs : List PyPath
  outputs : List PyPath
deriving DecidableEq, Repr

/-- A loosely typed configuration value (what TOML parsing yields). -/
inductive Value where
  | bool (b : Bool)
  | str (s : String)
  | list (xs : List Value)
  | table (kvs : List (String × Value))
deriving Repr

/-- A raw configuration: key/value pairs (`self.config`). -/
abbrev Config := List (String × Value)

/-- Model of `self.config.get(name, default)`. -/
def Config.get (c : Config) (name : String) (default : Value) : Value :=
  match c.find? (fun kv => kv.1 = name) with
  | some kv => kv.2
  | none => default

/-- Model of `_check_bool`. -/
def _check_bool (name : String) (value : Value) : Except String Bool :=
  match value with
  | .bool b => .ok b
  | _ => .error ("hatch-protobuf: " ++ name ++ " must be true or false")

/-- Model of `_check_str`. -/
def _check_str (name : String) (value : Value) : Except String String :=
  match value with
  | .str s => .ok s
  | _ => .error ("hatch-protobuf: " ++ name ++ " must be a string")

/-- Model of `_check_str_opt` (`None` is modelled by the `Option` wrapper). -/
def _check_str_opt (name : String) (value : Option Value) : Except String (Option String) :=
  match value with
  | none => .ok none
  | some v => do
    let s ← _check_str name v
    return some s

/-- Model of `_check_list`. -/
def _check_list (name : String) (value : Value) : Except String (List Value) :=
  match value with
  | .list xs => .ok xs
  | _ => .error ("hatch-protobuf: " ++ name ++ " must be a list")

/-- Model of `_check_list_of_str`. -/
def _check_list_of_str (name : String) (value : Value) : Except String (List String) :=
  match value with
  | .list xs =>
    xs.foldr (fun item acc =>
      match item with
      | .str s => do
        let rest ← acc
        return s :: rest
      | _ => .error ("hatch-protobuf: " ++ name ++ " must be a list of strings"))
      (.ok [])
  | _ => .error ("hatch-protobuf: " ++ name ++ " must be a list")

/-- Model of `_get_bool_conf`. -/
def _get_bool_conf (c : Config) (name : String) (default : Bool) : Except String Bool :=
  _check_bool name (c.get name (.bool default))

/-- Model of `_get_str_conf`. -/
def _get_str_conf (c : Config) (name : String) (default : String) : Except String String :=
  _check_str name (c.get name (.str default))

/-- Model of `_get_list_conf`. -/
def _get_list_conf (c : Config) (name : String) (default : List Value) :
    Except String (List Value) :=
  _check_list name (c.get name (.list default))

/-- Model of `_get_list_of_str_conf`. -/
def _get_list_of_str_conf (c : Config) (name : String) (default : List String) :
    Except String (List String) :=
  _check_list_of_str name (c.get name (.list (default.map .str)))

/-- Model of `dict[key]` lookup inside a `generators` table entry; a missing key raises
`KeyError` in Python, modelled as an error value. -/
def tableGet (kvs : List (String × Value)) (key : String) : Except String Value :=
  match kvs.find? (fun kv => kv.1 = key) with
  | some kv => .ok kv.2
  | none => .error ("KeyError: " ++ key)

/-- Model of `dict.get(key, default)` returning `none` when absent (the defaults used
by the plugin are `output_path` — handled by the caller — `None` and `[]`). -/
def tableGetOpt (kvs : List (String × Value)) (key : String) : Option Value :=
  match kvs.find? (fun kv => kv.1 = key) with
  | some kv => some kv.2
  | none => none

/-- Model of `_proto_paths` (the `defaultProtoPath` argument stands for the cached
`_default_proto_path` value). -/
def _proto_paths (c : Config) (defaultProtoPath : String) : Except String (List String) :=
  _get_list_of_str_conf c "proto_paths" [defaultProtoPath]

/-- Model of `_library_paths`. -/
def _library_paths (c : Config) : Except String (List String) :=
  _get_list_of_str_conf c "library_paths" []

/-- One entry of the custom `generators` configuration list, validated in the
field order of the source (`name`, `outputs`, `output_path`, `protoc_plugin`,
`options`).  Indexing a non-table raises `TypeError` in Python. -/
def parseCustomGenerator (output_path : String) (g : Value) : Except String Generator :=
  match g with
  | .table kvs => do
    let nameVal ← tableGet kvs "name"
    let name ← _check_str "generators.name" nameVal
    let outputsVal ← tableGet kvs "outputs"
    let outputs ← _check_list_of_str "generators.outputs" outputsVal
    let outPath ← _check_str "generators.output_path"
      ((tableGetOpt kvs "output_path").getD (.str output_path))
    let protocPlugin ← _check_str_opt "generators.protoc_plugin" (tableGetOpt kvs "protoc_plugin")
    let options ← _check_list_of_str "generators.options"
      ((tableGetOpt kvs "options").getD (.list []))
    return { name := name, outputs := outputs, output_path := PyPath.ofString outPath,
             protoc_plugin := protocPlugin, options := options }
  | _ => .error "TypeError: generators entry is not a table"

/-- Validate the custom generator entries in declaration order. -/
def parseCustomGenerators (output_path : String) : List Value → Except String (List Generator)
  | [] => .ok []
  | g :: rest => do
    let gen ← parseCustomGenerator output_path g
    let gens ← parseCustomGenerators output_path rest
    return gen :: gens

/-- Model of `_generators`: built-in generators first (python always; pyi and
grpc_python unless suppressed), then the custom generators in declaration
order. -/
def _generators (c : Config) (defaultProtoPath : String) : Except String (List Generator) := do
  let output_path ← _get_str_conf c "output_path" defaultProtoPath
  let generatePyi ← _get_bool_conf c "generate_pyi" true
  let generateGrpc ← _get_bool_conf c "generate_grpc" true
  let rawCustom ← _get_list_conf c "generators" []
  let customs ← parseCustomGenerators output_path rawCustom
  return [Generator.mk "python" ["{proto_path}/{proto_name}_pb2.py"]
            (PyPath.ofString output_path) none []]
    ++ (if generatePyi then
          [Generator.mk "pyi" ["{proto_path}/{proto_name}_pb2.pyi"]
            (PyPath.ofString output_path) none []] else [])
    ++ (if generateGrpc then
          [Generator.mk "grpc_python" ["{proto_path}/{proto_name}_pb2_grpc.py"]
            (PyPath.ofString output_path) none []] else [])
    ++ customs

/-- The model filesystem: the project tree as a list of root-relative file
paths, in the host's enumeration order (the order `Path.glob` yields). -/
abbrev FileSystem := List PyPath

/-- Does the glob pattern `**/*.proto`, rooted at search path `sp`, match the
root-relative file `e`?  `**` matches zero or more directories and `*.proto`
matches a final component ending in `.proto`. -/
def globProto (sp : PyPath) (e : PyPath) : Bool :=
  sp.parts.isPrefixOf e.parts && decide (sp.parts.length < e.parts.length)
    && strEndsWith e.name ".proto"

/-- Discovery loop of `_files` (lines 213–220): for each `proto_paths` entry
in order, every matching file, paired with its search-path-relative identity
(`proto.relative_to(abs_path)`); the root-relative identity is the file path
itself since the model filesystem is root-relative. -/
def discover (protoPaths : List String) (fs : FileSystem) : List (PyPath × PyPath) :=
  protoPaths.flatMap (fun p =>
    let sp := PyPath.ofString p
    (fs.filter (globProto sp)).map
      (fun e => (e, PyPath.mk false (e.parts.drop sp.parts.length))))

/-- Template expansion of `_files` (lines 227–234): substitute
`{proto_name}` then `{proto_path}` and prefix the generator's output path. -/
def expandPattern (proto : PyPath) (pattern : String) (output_path : PyPath) : PyPath :=
  let proto_path := proto.parent.toStr
  let proto_name := proto.stem
  output_path.div (strReplace (strReplace pattern "{proto_name}" proto_name) "{proto_path}" proto_path)

/-- Model of `_files`: discovered inputs and the derived outputs, via the flattened
`patterns` list `[(output, g.output_path) for g in generators for output in g.outputs]`
iterated inputs-outer. -/
def _files (protoPaths : List String) (generators : List Generator) (fs : FileSystem) : Files :=
  let discovered := discover protoPaths fs
  let inputs := discovered.map Prod.fst
  let rel_inputs := discovered.map Prod.snd
  let patterns := generators.flatMap (fun g => g.outputs.map (fun output => (output, g.output_path)))
  let outputs := rel_inputs.flatMap (fun proto =>
    patterns.map (fun po => expandPattern proto po.1 po.2))
  ⟨inputs, outputs⟩

/-- Model of `(self._root_path / pn / "__init__.py").is_file()` in the model:
membership of the root-relative path in the filesystem listing. -/
def isFile (fs : FileSystem) (p : PyPath) : Bool :=
  fs.contains p

/-- The candidate loop of `_default_proto_path` (lines 130–139): per
candidate name, check `<pn>/__init__.py` at the root, then
`src/<pn>/__init__.py`, before moving to the next candidate. -/
def defaultProtoPathLoop (fs : FileSystem) : List String → String
  | [] => "."
  | pn :: rest =>
    if isFile fs ((PyPath.ofString pn).div "__init__.py") then "."
    else if isFile fs (((PyPath.ofString "src").div pn).div "__init__.py") then "src"
    else defaultProtoPathLoop fs rest

/-- Model of `_default_proto_path`: the candidates are
`normalize_file_name_component(raw_name)` then
`normalize_file_name_component(name)`, supplied by the metadata provider. -/
def _default_proto_path (rawNameNorm nameNorm : String) (fs : FileSystem) : String :=
  defaultProtoPathLoop fs [rawNameNorm, nameNorm]

/-- The argument list built by `initialize` (lines 85–108), written with the
same sequential appends as the imperative loops.  `pyExe` stands for
`sys.executable` and `purelib` for `sysconfig.get_path("purelib")`. -/
def initializeArgs (pyExe purelib : String) (protoPaths libraryPaths : List String)
    (importSitePackages : Bool) (generators : List Generator) (files : Files) :
    List String :=
  let args := [pyExe, "-m", "grpc_tools.protoc"]
  let args := protoPaths.foldl (fun a p => a ++ ["--proto_path", p]) args
  let args := libraryPaths.foldl (fun a p => a ++ ["--proto_path", p]) args
  let args := if importSitePackages then args ++ ["--proto_path", purelib] else args
  let args := generators.foldl (fun a g =>
    let a := match g.protoc_plugin with
      | some pp =>
        if pp ≠ "" then a ++ ["--plugin=protoc-gen-" ++ g.name ++ "=" ++ pp] else a
      | none => a
    let a := a ++ ["--" ++ g.name ++ "_out=" ++ g.output_path.toStr]
    g.options.foldl (fun a opt => a ++ ["--" ++ g.name ++ "_opt=" ++ opt]) a) args
  args ++ files.inputs.map PyPath.toStr

/-- Model of `initialize` (lines 78–113): if there are no outputs, return without
doing anything; otherwise build the arguments, run the compiler once
(`subprocess.run(..., check=True)`, whose exit code is the `exitCode`
parameter; non-zero raises `CalledProcessError`), and only on success append
the outputs (as POSIX strings) to `build_data["artifacts"]`.  The first
component of the result is the trace of child-process invocations. -/
def initializeModel (pyExe purelib : String) (protoPaths libraryPaths : List String)
    (importSitePackages : Bool) (generators : List Generator) (files : Files)
    (exitCode : Nat) (artifacts : List String) :
    List (List String) × Except String (List String) :=
  if files.outputs.isEmpty then ([], .ok artifacts)
  else
    let args := initializeArgs pyExe purelib protoPaths libraryPaths importSitePackages
      generators files
    if exitCode ≠ 0 then
      ([args], .error ("CalledProcessError: exit status " ++ toString exitCode))
    else
      ([args], .ok (artifacts ++ files.outputs.map PyPath.toStr))

/-- Model of `clean` (lines 115–121): if there are no outputs, return; otherwise
unlink `root_path / output` for every derived output, a missing file being no
error (`missing_ok=True`). -/
def cleanModel (root : PyPath) (files : Files) (fs : FileSystem) : FileSystem :=
  if files.outputs.isEmpty then fs
  else files.outputs.foldl (fun acc output => acc.filter (fun f => f ≠ root.divP output)) fs

/-- The block of arguments contributed by one generator (spec §4.4 item 4):
the plugin registration when `protoc_plugin` is truthy — `if
generator.protoc_plugin:` at line 100 is a Python truthiness test, so `None`
and the empty string both emit no flag — then the `_out` flag, then one
`_opt` flag per option in order. -/
def generatorArgs (g : Generator) : List String :=
  (match g.protoc_plugin with
   | some pp =>
     if pp ≠ "" then ["--plugin=protoc-gen-" ++ g.name ++ "=" ++ pp] else []
   | none => [])
  ++ ("--" ++ g.name ++ "_out=" ++ g.output_path.toStr)
    :: g.options.map (fun opt => "--" ++ g.name ++ "_opt=" ++ opt)

/-- Existence of a directory in the listing model: some listed file lies
strictly below it. -/
def dirExists (fs : FileSystem) (parts : List String) : Bool :=
  fs.any (fun f => parts.isPrefixOf f.parts && decide (parts.length < f.parts.length))

/-- Modelled from the spec: the default-path rule as the spec words it —
"`.` if the normalized project name directory exists at project root,
otherwise `src` if it exists under a `src` subdirectory, otherwise falls
back to root" — i.e. it tests directory existence for a single normalized
project name, not the presence of an `__init__.py` file.  Kept for
comparison with `_default_proto_path`, which is translated from the code. -/
def specDefaultProtoPath (projectName : String) (fs : FileSystem) : String :=
  if dirExists fs (splitParts projectName) then "."
  else if dirExists fs ("src" :: splitParts projectName) then "src"
  else "."

/-! ## Helper lemmas -/

theorem foldl_append_of_step {α β : Type} (body : List β → α → List β) (f : α → List β)
    (h : ∀ a x, body a x = a ++ f x) :
    ∀ (xs : List α) (acc : List β), xs.foldl body acc = acc ++ xs.flatMap f := by
  intro xs
  induction xs with
  | nil => intro acc; simp
  | cons x xs ih =>
    intro acc
    simp only [List.foldl_cons, List.flatMap_cons, h, ih, List.append_assoc]

theorem flatMap_singleton_eq_map {α β : Type} (f : α → β) (xs : List α) :
    xs.flatMap (fun x => [f x]) = xs.map f := by
  induction xs with
  | nil => rfl
  | cons x xs ih => simp [List.flatMap_cons, ih]

theorem generator_step (a : List String) (g : Generator) :
    (let a := match g.protoc_plugin with
       | some pp =>
         if pp ≠ "" then a ++ ["--plugin=protoc-gen-" ++ g.name ++ "=" ++ pp] else a
       | none => a
     let a := a ++ ["--" ++ g.name ++ "_out=" ++ g.output_path.toStr]
     g.options.foldl (fun a opt => a ++ ["--" ++ g.name ++ "_opt=" ++ opt]) a)
      = a ++ generatorArgs g := by
  cases hp : g.protoc_plugin with
  | none =>
    simp only [hp, generatorArgs,
      foldl_append_of_step _ (fun opt => ["--" ++ g.name ++ "_opt=" ++ opt]) (fun _ _ => rfl),
      flatMap_singleton_eq_map, List.append_assoc]
    simp
  | some pp =>
    by_cases hpp : pp = "" <;>
      simp only [hp, hpp, generatorArgs,
        foldl_append_of_step _ (fun opt => ["--" ++ g.name ++ "_opt=" ++ opt]) (fun _ _ => rfl),
        flatMap_singleton_eq_map, List.append_assoc] <;>
      simp [hpp]

/-! ## Claims -/

/-- C1: the argument sequence built by `initialize` for the external compiler
is exactly, in order: the interpreter prefix, one `--proto_path p` pair per
`proto_paths` entry in order, one per `library_paths` entry in order, the
site-packages pair when `import_site_packages` is set, then per generator in
declaration order its plugin registration (when it has a truthy plugin path:
`if generator.protoc_plugin:` at line 100 emits no flag for `None` or the
empty string), its `--<name>_out` flag and its `--<name>_opt` flags in
option order, and finally the root-relative inputs in discovery order; in
particular a `mypy` generator with options `["foo=1", "bar=two"]` yields
`--mypy_opt=foo=1` immediately before `--mypy_opt=bar=two`, and an
empty-string plugin path registers no plugin. -/
theorem C1_invocation_argument_order (pyExe purelib : String)
    (protoPaths libraryPaths : List String) (importSitePackages : Bool)
    (gens : List Generator) (files : Files) :
    initializeArgs pyExe purelib protoPaths libraryPaths importSitePackages gens files
      = [pyExe, "-m", "grpc_tools.protoc"]
        ++ protoPaths.flatMap (fun p => ["--proto_path", p])
        ++ libraryPaths.flatMap (fun p => ["--proto_path", p])
        ++ (if importSitePackages then ["--proto_path", purelib] else [])
        ++ gens.flatMap generatorArgs
        ++ files.inputs.map PyPath.toStr
    ∧ initializeArgs "python" "purelib" ["."] [] false
        [Generator.mk "mypy" ["{proto_path}/{proto_name}_pb2.pyi"]
          (PyPath.ofString "out") none ["foo=1", "bar=two"]]
        (Files.mk [PyPath.mk false ["pkg", "helloworld.proto"]] [])
      = ["python", "-m", "grpc_tools.protoc", "--proto_path", ".",
         "--mypy_out=out", "--mypy_opt=foo=1", "--mypy_opt=bar=two",
         "pkg/helloworld.proto"]
    ∧ initializeArgs "python" "purelib" [] [] false
        [Generator.mk "mypy" [] (PyPath.mk false ["out"]) (some "") []]
        (Files.mk [] [])
      = ["python", "-m", "grpc_tools.protoc", "--mypy_out=out"] := by
  refine ⟨?_, rfl, rfl⟩
  simp only [initializeArgs,
    foldl_append_of_step _ (fun p => ["--proto_path", p]) (fun _ _ => rfl),
    foldl_append_of_step _ generatorArgs generator_step,
    List.append_assoc]
  cases importSitePackages <;> simp

/-- C2: the derived output list is the cross product of the discovered
inputs, the generators in declaration order, and each generator's templates,
ordered inputs-outer, generators-inner, templates-innermost; derivation is a
pure function, so deriving twice from the same data yields identical ordered
lists definitionally. -/
theorem C2_output_cross_product (protoPaths : List String) (gens : List Generator)
    (fs : FileSystem) :
    (_files protoPaths gens fs).outputs
      = ((discover protoPaths fs).map Prod.snd).flatMap (fun proto =>
          gens.flatMap (fun g =>
            g.outputs.map (fun t => expandPattern proto t g.output_path)))
    ∧ _files protoPaths gens fs = _files protoPaths gens fs := by
  refine ⟨?_, rfl⟩
  unfold _files
  simp only [List.map_flatMap, List.map_map]
  rfl

theorem pyPath_div_of_parse (op : PyPath) (s : String) (ps : List String)
    (h : PyPath.ofString s = PyPath.mk false ps) :
    op.div s = PyPath.mk op.absolute (op.parts ++ ps) := by
  simp [PyPath.div, h]

theorem clean_foldl_eq_filter (root : PyPath) (outs : List PyPath) :
    ∀ fs : FileSystem,
      outs.foldl (fun acc o => acc.filter (fun f => f ≠ root.divP o)) fs
        = fs.filter (fun f => decide (∀ o ∈ outs, f ≠ root.divP o)) := by
  induction outs with
  | nil => intro fs; simp
  | cons o rest ih =>
    intro fs
    simp only [List.foldl_cons, ih, List.filter_filter]
    congr 1
    funext f
    simp [List.forall_mem_cons, Bool.and_comm]

/-- C3: a file at the root of its search path (empty search-path-relative
parent) expands without any spurious separator or `.` segment: the generator
`mypy` with template `{proto_path}/{proto_name}_pb2.pyi` applied to input
`pkg/helloworld.proto` under search path `pkg` derives exactly
`output_path / helloworld_pb2.pyi`, for every output path. -/
theorem C3_root_input_no_spurious_segment (op : PyPath) :
    (_files ["pkg"]
        [Generator.mk "mypy" ["{proto_path}/{proto_name}_pb2.pyi"] op none []]
        [PyPath.mk false ["pkg", "helloworld.proto"]]).outputs
      = [PyPath.mk op.absolute (op.parts ++ ["helloworld_pb2.pyi"])] := by
  have hdisc : discover ["pkg"] [PyPath.mk false ["pkg", "helloworld.proto"]]
      = [(PyPath.mk false ["pkg", "helloworld.proto"],
          PyPath.mk false ["helloworld.proto"])] := rfl
  have hexp : strReplace
        (strReplace "{proto_path}/{proto_name}_pb2.pyi" "{proto_name}"
          (PyPath.stem (PyPath.mk false ["helloworld.proto"])))
        "{proto_path}" (PyPath.toStr (PyPath.parent (PyPath.mk false ["helloworld.proto"])))
      = "./helloworld_pb2.pyi" := rfl
  simp only [_files, hdisc, List.map_cons, List.map_nil, List.flatMap_cons,
    List.flatMap_nil, List.append_nil, expandPattern, hexp]
  rw [pyPath_div_of_parse op "./helloworld_pb2.pyi" ["helloworld_pb2.pyi"] rfl]

/-- C4: under one configuration, `initialize` reports as artifacts exactly
the derived outputs (as POSIX strings), `clean` keeps a file iff it is not
one of the derived output paths (so a path already absent is simply not
there — no error), and running `clean` twice equals running it once. -/
theorem C4_generate_clean_roundtrip (root : PyPath) (files : Files) (fs : FileSystem)
    (pyExe purelib : String) (protoPaths libraryPaths : List String)
    (importSitePackages : Bool) (gens : List Generator) :
    (initializeModel pyExe purelib protoPaths libraryPaths importSitePackages
        gens files 0 []).2
      = .ok (files.outputs.map PyPath.toStr)
    ∧ (∀ f, f ∈ cleanModel root files fs ↔
        f ∈ fs ∧ ∀ o ∈ files.outputs, f ≠ root.divP o)
    ∧ cleanModel root files (cleanModel root files fs) = cleanModel root files fs := by
  refine ⟨?_, ?_, ?_⟩
  · by_cases h : files.outputs.isEmpty
    · simp [initializeModel, h, List.isEmpty_iff.mp h]
    · simp [initializeModel, h]
  · intro f
    by_cases h : files.outputs.isEmpty
    · simp [cleanModel, h, List.isEmpty_iff.mp h]
    · simp only [cleanModel, h, if_false, clean_foldl_eq_filter, List.mem_filter,
        decide_eq_true_eq, Bool.false_eq_true]
  · by_cases h : files.outputs.isEmpty
    · simp [cleanModel, h]
    · have hkeep : ∀ gs : FileSystem,
          (cleanModel root files gs).filter
              (fun f => decide (∀ o ∈ files.outputs, f ≠ root.divP o))
            = cleanModel root files gs := by
        intro gs
        simp only [cleanModel, h, if_false, clean_foldl_eq_filter, List.filter_filter,
          Bool.false_eq_true]
        congr 1
        funext f
        rw [Bool.and_self]
      simp only [cleanModel, h, if_false, clean_foldl_eq_filter, Bool.false_eq_true]
      have := hkeep fs
      simp only [cleanModel, h, if_false, clean_foldl_eq_filter, Bool.false_eq_true] at this
      exact this

/-- C5: whenever generator resolution succeeds, the list starts with the
built-in generators in fixed order — python always, pyi unless
`generate_pyi` is false, grpc_python unless `generate_grpc` is false, all on
the resolved default output path — followed by the custom generators in
declaration order; and with both flags false and no custom generators, the
derived output set for input `x.proto` is exactly the primary generator's
single output `x_pb2.py`. -/
theorem C5_builtin_generators_first (c : Config) (d : String) (gs : List Generator)
    (h : _generators c d = .ok gs) :
    (∃ op generatePyi generateGrpc rawCustom customs,
      _get_str_conf c "output_path" d = .ok op
      ∧ _get_bool_conf c "generate_pyi" true = .ok generatePyi
      ∧ _get_bool_conf c "generate_grpc" true = .ok generateGrpc
      ∧ _get_list_conf c "generators" [] = .ok rawCustom
      ∧ parseCustomGenerators op rawCustom = .ok customs
      ∧ gs = [Generator.mk "python" ["{proto_path}/{proto_name}_pb2.py"]
                (PyPath.ofString op) none []]
          ++ (if generatePyi then
                [Generator.mk "pyi" ["{proto_path}/{proto_name}_pb2.pyi"]
                  (PyPath.ofString op) none []] else [])
          ++ (if generateGrpc then
                [Generator.mk "grpc_python" ["{proto_path}/{proto_name}_pb2_grpc.py"]
                  (PyPath.ofString op) none []] else [])
          ++ customs)
    ∧ _generators [("generate_pyi", Value.bool false), ("generate_grpc", Value.bool false)] "."
        = .ok [Generator.mk "python" ["{proto_path}/{proto_name}_pb2.py"]
                (PyPath.mk false []) none []]
    ∧ (_files ["."]
          [Generator.mk "python" ["{proto_path}/{proto_name}_pb2.py"]
            (PyPath.mk false []) none []]
          [PyPath.mk false ["x.proto"]]).outputs
        = [PyPath.mk false ["x_pb2.py"]] := by
  refine ⟨?_, rfl, rfl⟩
  cases h1 : _get_str_conf c "output_path" d with
  | error e => simp [_generators, h1, Bind.bind, Except.bind] at h
  | ok op =>
    cases h2 : _get_bool_conf c "generate_pyi" true with
    | error e => simp [_generators, h1, h2, Bind.bind, Except.bind] at h
    | ok generatePyi =>
      cases h3 : _get_bool_conf c "generate_grpc" true with
      | error e => simp [_generators, h1, h2, h3, Bind.bind, Except.bind] at h
      | ok generateGrpc =>
        cases h4 : _get_list_conf c "generators" [] with
        | error e => simp [_generators, h1, h2, h3, h4, Bind.bind, Except.bind] at h
        | ok rawCustom =>
          cases h5 : parseCustomGenerators op rawCustom with
          | error e => simp [_generators, h1, h2, h3, h4, h5, Bind.bind, Except.bind] at h
          | ok customs =>
            refine ⟨op, generatePyi, generateGrpc, rawCustom, customs,
              rfl, rfl, rfl, rfl, h5, ?_⟩
            simp [_generators, h1, h2, h3, h4, h5, Bind.bind, Except.bind,
              pure, Except.pure] at h
            rw [← h]
            simp

/-- C6: supplying `proto_paths` as a string fails with the configuration
error `hatch-protobuf: proto_paths must be a list`, whose text contains both
the option name `proto_paths` and the expected shape `must be a list`. -/
theorem C6_proto_paths_wrong_shape (s : String) (d : String) (rest : Config) :
    _proto_paths (("proto_paths", Value.str s) :: rest) d
      = .error "hatch-protobuf: proto_paths must be a list"
    ∧ "proto_paths".data <:+: ("hatch-protobuf: proto_paths must be a list").data
    ∧ "must be a list".data <:+: ("hatch-protobuf: proto_paths must be a list").data := by
  refine ⟨?_, by decide, by decide⟩
  have hget : Config.get (("proto_paths", Value.str s) :: rest) "proto_paths"
      (Value.list [Value.str d]) = Value.str s := by
    simp [Config.get, List.find?]
  simp only [_proto_paths, _get_list_of_str_conf, _check_list_of_str,
    List.map_cons, List.map_nil, hget]
  rfl

/-- C7: when the derived output set is nonempty and the external compiler
exits non-zero, `initialize` performs exactly one child-process invocation
(no retry) and fails with the process error, leaving the artifact list
untouched — the result is an error, not an `ok` carrying any partial
artifact list. -/
theorem C7_nonzero_exit_is_fatal (pyExe purelib : String)
    (protoPaths libraryPaths : List String) (importSitePackages : Bool)
    (gens : List Generator) (files : Files) (exitCode : Nat) (artifacts : List String)
    (hout : files.outputs ≠ []) (hexit : exitCode ≠ 0) :
    initializeModel pyExe purelib protoPaths libraryPaths importSitePackages gens files
        exitCode artifacts
      = ([initializeArgs pyExe purelib protoPaths libraryPaths importSitePackages gens files],
         .error ("CalledProcessError: exit status " ++ toString exitCode)) := by
  have hne : files.outputs.isEmpty = false := by
    simp [List.isEmpty_iff, hout]
  simp [initializeModel, hne, hexit]

/-- Witness for C7 at a concrete configuration: one derived output, exit
code 1. -/
theorem C7_nonzero_exit_is_fatal_witness :
    initializeModel "python" "purelib" [] [] false []
        (Files.mk [] [PyPath.mk false ["x"]]) 1 []
      = ([initializeArgs "python" "purelib" [] [] false []
            (Files.mk [] [PyPath.mk false ["x"]])],
         .error "CalledProcessError: exit status 1") :=
  C7_nonzero_exit_is_fatal "python" "purelib" [] [] false []
    (Files.mk [] [PyPath.mk false ["x"]]) 1 [] (by decide) (by decide)

/-- Witness for C5: the empty configuration resolves to the three
built-in generators and no custom ones. -/
theorem C5_builtin_generators_first_witness :
    (∃ op generatePyi generateGrpc rawCustom customs,
      _get_str_conf [] "output_path" "." = .ok op
      ∧ _get_bool_conf [] "generate_pyi" true = .ok generatePyi
      ∧ _get_bool_conf [] "generate_grpc" true = .ok generateGrpc
      ∧ _get_list_conf [] "generators" [] = .ok rawCustom
      ∧ parseCustomGenerators op rawCustom = .ok customs
      ∧ [Generator.mk "python" ["{proto_path}/{proto_name}_pb2.py"]
           (PyPath.mk false []) none [],
         Generator.mk "pyi" ["{proto_path}/{proto_name}_pb2.pyi"]
           (PyPath.mk false []) none [],
         Generator.mk "grpc_python" ["{proto_path}/{proto_name}_pb2_grpc.py"]
           (PyPath.mk false []) none []]
          = [Generator.mk "python" ["{proto_path}/{proto_name}_pb2.py"]
               (PyPath.ofString op) none []]
            ++ (if generatePyi then
                  [Generator.mk "pyi" ["{proto_path}/{proto_name}_pb2.pyi"]
                    (PyPath.ofString op) none []] else [])
            ++ (if generateGrpc then
                  [Generator.mk "grpc_python" ["{proto_path}/{proto_name}_pb2_grpc.py"]
                    (PyPath.ofString op) none []] else [])
            ++ customs)
    ∧ _generators [("generate_pyi", Value.bool false), ("generate_grpc", Value.bool false)] "."
        = .ok [Generator.mk "python" ["{proto_path}/{proto_name}_pb2.py"]
                (PyPath.mk false []) none []]
    ∧ (_files ["."]
          [Generator.mk "python" ["{proto_path}/{proto_name}_pb2.py"]
            (PyPath.mk false []) none []]
          [PyPath.mk false ["x.proto"]]).outputs
        = [PyPath.mk false ["x_pb2.py"]] :=
  C5_builtin_generators_first [] "."
    [Generator.mk "python" ["{proto_path}/{proto_name}_pb2.py"] (PyPath.mk false []) none [],
     Generator.mk "pyi" ["{proto_path}/{proto_name}_pb2.pyi"] (PyPath.mk false []) none [],
     Generator.mk "grpc_python" ["{proto_path}/{proto_name}_pb2_grpc.py"]
       (PyPath.mk false []) none []]
    rfl

/-- Counterexample to C8 as stated: with project name `foo` (both
normalization candidates equal), a directory `foo` that exists at the
project root but holds no `__init__.py`, and a package under
`src/foo/__init__.py`, the code returns `src`, while the claim's rule —
"`.` if the normalized project name directory exists at the project root" —
yields `.`: the code tests for the `__init__.py` file, not for the
directory. -/
theorem C8_default_path_counterexample :
    _default_proto_path "foo" "foo"
        [PyPath.mk false ["foo", "data.txt"], PyPath.mk false ["src", "foo", "__init__.py"]]
      = "src"
    ∧ specDefaultProtoPath "foo"
        [PyPath.mk false ["foo", "data.txt"], PyPath.mk false ["src", "foo", "__init__.py"]]
      = "."
    ∧ dirExists
        [PyPath.mk false ["foo", "data.txt"], PyPath.mk false ["src", "foo", "__init__.py"]]
        (splitParts "foo") = true := by
  refine ⟨rfl, rfl, rfl⟩

/-- C8 (amended): the inferred default tests for the presence of an
`__init__.py` file, not for mere existence of the project-name directory,
and tries the file-name-normalized raw project name and then the
file-name-normalized canonical name, checking the project root before the
`src` subdirectory per candidate: `.` when `<rawNameNorm>/__init__.py` is a
file, else `src` when `src/<rawNameNorm>/__init__.py` is a file, else the
same two checks for `<nameNorm>`, else `.` — stated for arbitrary, possibly
distinct, candidates; and when `proto_paths` (resp. `output_path`) is
omitted that inferred value is the default. -/
theorem C8_default_path_amended (rawNameNorm nameNorm : String) (fs : FileSystem)
    (d : String) :
    _default_proto_path rawNameNorm nameNorm fs
      = (if isFile fs ((PyPath.ofString rawNameNorm).div "__init__.py") then "."
         else if isFile fs
             (((PyPath.ofString "src").div rawNameNorm).div "__init__.py") then "src"
         else if isFile fs ((PyPath.ofString nameNorm).div "__init__.py") then "."
         else if isFile fs
             (((PyPath.ofString "src").div nameNorm).div "__init__.py") then "src"
         else ".")
    ∧ _proto_paths [] d = .ok [d]
    ∧ _get_str_conf [] "output_path" d = .ok d := by
  refine ⟨?_, rfl, rfl⟩
  simp only [_default_proto_path, defaultProtoPathLoop]

/-- Counterexample to C9 as stated: with overlapping search paths `.` and
`pkg`, the single file `pkg/x.proto` is discovered once per search path, so
the input list contains the same root-relative path twice — discovery does
not deduplicate by path identity. -/
theorem C9_discovery_counterexample :
    (_files [".", "pkg"] [] [PyPath.mk false ["pkg", "x.proto"]]).inputs
      = [PyPath.mk false ["pkg", "x.proto"], PyPath.mk false ["pkg", "x.proto"]]
    ∧ ¬ (_files [".", "pkg"] [] [PyPath.mk false ["pkg", "x.proto"]]).inputs.Nodup := by
  refine ⟨rfl, by decide⟩

theorem isPrefixOf_append_drop {α : Type} [DecidableEq α] :
    ∀ (l₁ l₂ : List α), l₁.isPrefixOf l₂ = true → l₂ = l₁ ++ l₂.drop l₁.length
  | [], _, _ => by simp
  | a :: l, [], h => by simp [List.isPrefixOf] at h
  | a :: l, b :: l₂, h => by
    simp only [List.isPrefixOf, Bool.and_eq_true, beq_iff_eq] at h
    obtain ⟨hab, hrest⟩ := h
    subst hab
    simpa using isPrefixOf_append_drop l l₂ hrest

/-- C9 (amended): discovery returns every `.proto` file found recursively
under each search path, concatenated per search path in configuration order
(a file reachable from several search paths appears once per such path; no
cross-path deduplication), in the filesystem enumeration order within each
search path; and each discovered entry retains both identities: the
root-relative path equals its owning search path joined with the
search-path-relative path. -/
theorem C9_discovery_amended (protoPaths : List String) (gens : List Generator)
    (fs : FileSystem) :
    (_files protoPaths gens fs).inputs
      = protoPaths.flatMap (fun p => fs.filter (globProto (PyPath.ofString p)))
    ∧ ∀ pr ∈ discover protoPaths fs,
        ∃ p ∈ protoPaths,
          globProto (PyPath.ofString p) pr.1 = true
          ∧ pr.1.parts = (PyPath.ofString p).parts ++ pr.2.parts
          ∧ pr.2.absolute = false := by
  constructor
  · simp only [_files, discover, List.map_flatMap, List.map_map]
    congr 1
    funext a
    have hfst : (Prod.fst ∘ fun e : PyPath =>
        (e, PyPath.mk false (e.parts.drop (PyPath.ofString a).parts.length))) = id := rfl
    rw [hfst, List.map_id]
  · intro pr hpr
    simp only [discover, List.mem_flatMap, List.mem_map, List.mem_filter] at hpr
    obtain ⟨p, hp, e, ⟨he, hg⟩, heq⟩ := hpr
    refine ⟨p, hp, ?_, ?_, ?_⟩
    · rw [← heq]; exact hg
    · rw [← heq]
      have hg' := hg
      simp only [globProto, Bool.and_eq_true] at hg'
      exact isPrefixOf_append_drop _ _ hg'.1.1
    · rw [← heq]

/-- Witness for C9 (amended): the entry discovered under search path `.`
relates its two identities. -/
theorem C9_discovery_amended_witness :
    ∃ p ∈ [".", "pkg"],
      globProto (PyPath.ofString p) (PyPath.mk false ["pkg", "x.proto"]) = true
      ∧ (PyPath.mk false ["pkg", "x.proto"]).parts
          = (PyPath.ofString p).parts ++ (PyPath.mk false ["pkg", "x.proto"]).parts
      ∧ (PyPath.mk false ["pkg", "x.proto"]).absolute = false :=
  (C9_discovery_amended [".", "pkg"] [] [PyPath.mk false ["pkg", "x.proto"]]).2
    (PyPath.mk false ["pkg", "x.proto"], PyPath.mk false ["pkg", "x.proto"]) (by decide)

/-- C10: when nothing is discovered the derived output set is empty, and an
empty derived output set makes `initialize` a successful no-op — no
child-process invocation, artifacts unchanged — and makes `clean` delete
nothing. -/
theorem C10_empty_output_set_noop (pyExe purelib : String)
    (protoPaths libraryPaths : List String) (importSitePackages : Bool)
    (gens : List Generator) (fs : FileSystem) (exitCode : Nat)
    (artifacts : List String) (root : PyPath) (disk : FileSystem) :
    (discover protoPaths fs = [] → (_files protoPaths gens fs).outputs = [])
    ∧ ((_files protoPaths gens fs).outputs = [] →
        initializeModel pyExe purelib protoPaths libraryPaths importSitePackages gens
            (_files protoPaths gens fs) exitCode artifacts
          = ([], .ok artifacts)
        ∧ cleanModel root (_files protoPaths gens fs) disk = disk) := by
  constructor
  · intro h
    simp [_files, h]
  · intro h
    exact ⟨by simp [initializeModel, h], by simp [cleanModel, h]⟩

/-- Witness for C10: an empty filesystem discovers nothing, generates
nothing, invokes nothing and cleans nothing. -/
theorem C10_empty_output_set_noop_witness :
    (_files ["."] [] []).outputs = []
    ∧ (initializeModel "python" "purelib" ["."] [] false [] (_files ["."] [] []) 0 []
        = ([], .ok [])
       ∧ cleanModel (PyPath.mk false []) (_files ["."] [] [])
           [PyPath.mk false ["keep.txt"]] = [PyPath.mk false ["keep.txt"]]) :=
  ⟨(C10_empty_output_set_noop "python" "purelib" ["."] [] false [] [] 0 []
      (PyPath.mk false []) [PyPath.mk false ["keep.txt"]]).1 rfl,
   (C10_empty_output_set_noop "python" "purelib" ["."] [] false [] [] 0 []
      (PyPath.mk false []) [PyPath.mk false ["keep.txt"]]).2 rfl⟩

end HatchProtobuf
